import Mathlib

/-!
A shallow embedding of the job-lifecycle core of the multilingual text
intelligence service: the mode selector (utils.determine_processing_mode),
the Firestore-backed job store (database.Database), the translation wrapper
(translation_service.TranslationService.detect_and_translate), the async
coordinator (worker.WorkerService.process_job), the Pub/Sub message wrapper
(pubsub_client.PubSubSubscriber.start_listening) and the submission endpoint
(api.process_text).

Modelling conventions:
* wall-clock time (datetime.utcnow()) is a logical counter ticked once per
  call, threaded through an execution state;
* Firestore documents are an association list keyed by job id; doc_ref.update
  on a missing document raises (NotFound), doc_ref.set upserts;
* Python exceptions are Except String carrying str(e);
* external collaborators (translation client, NLP analyzers) are function
  parameters; analyzers may raise (Except), the translation wrapper is total
  because the source catches every exception and returns (None, None);
* Python truthiness of optional strings (None and "" are falsy) is the
  function truthy / orOriginal below;
* every store mutation appends the resulting document table to a snapshot
  list, so that what a concurrent status query could observe is the sequence
  of snapshots; every collaborator call and store call appends an event to a
  trace list.
-/

namespace TextIntel

/-- models.JobStatus -/
inductive JobStatus
  | pending
  | processing
  | completed
  | failed
deriving DecidableEq

/-- models.ProcessingMode (SYNC = "sync", ASYNC = "async") -/
inductive ProcessingMode
  | sync
  | async
deriving DecidableEq

/-- Payload of a sentiment analysis result (the source stores an opaque dict;
only its presence matters to the lifecycle, so we keep the label field and
drop the float-valued score, which has no shallow embedding). -/
structure SentimentVal where
  label : String
deriving DecidableEq

/-- One named entity as produced by the entity extractor (dict with text,
label, start, end; stop models the Python key "end"). -/
structure EntityVal where
  text : String
  label : String
  start : Nat
  stop : Nat
deriving DecidableEq

/-- Opaque caller-supplied metadata bag. -/
abbrev Metadata := List (String × String)

/-- One Firestore document of the text_jobs collection, with the fields the
core ever writes. Optional fields are absent (none) until written; writing
none over a field models Firestore storing null, which readers using
dict.get cannot distinguish from absent. -/
structure JobRecord where
  job_id : String
  status : JobStatus
  original_text : String
  mode : ProcessingMode
  created_at : Nat
  metadata : Metadata
  updated_at : Option Nat
  processing_started_at : Option Nat
  completed_at : Option Nat
  error : Option String
  detected_language : Option String
  translated_text : Option String
  sentiment : Option SentimentVal
  summary : Option String
  entities : Option (List EntityVal)
deriving DecidableEq

/-- models.ProcessingResult -/
structure ProcessingResult where
  job_id : String
  status : JobStatus
  original_text : String
  detected_language : Option String
  translated_text : Option String
  sentiment : Option SentimentVal
  summary : Option String
  entities : Option (List EntityVal)
  created_at : Nat
  completed_at : Option Nat
  error : Option String
  metadata : Metadata
deriving DecidableEq

/-- One observable call made by the core: a store mutation, a collaborator
invocation, or a queue publish. -/
inductive Event
  | storeCreate (job_id : String)
  | storeUpdateStatus (job_id : String) (status : JobStatus) (err : Option String)
  | storeSaveResult (job_id : String)
  | callTranslate (text : String)
  | callSentiment (text : String)
  | callSummary (text : String)
  | callEntities (text : String)
  | publish (job_id : String) (text : String) (metadata : Metadata)
deriving DecidableEq

/-- Execution state: the Firestore table, the logical clock, the trace of
calls made so far, and the snapshot of the table after each store mutation
(what a concurrent reader could observe). -/
structure Exec where
  docs : List (String × JobRecord)
  clock : Nat
  events : List Event
  snaps : List (List (String × JobRecord))
deriving DecidableEq

/-- datetime.utcnow(), modelled as reading and ticking the logical clock. -/
def utcnow (st : Exec) : Nat × Exec :=
  (st.clock, { st with clock := st.clock + 1 })

/-- Firestore document lookup by id. -/
def lookupJob : List (String × JobRecord) → String → Option JobRecord
  | [], _ => none
  | (k, v) :: rest, i => if k = i then some v else lookupJob rest i

/-- Firestore doc_ref.set: upsert the document with the given id. -/
def setJob : List (String × JobRecord) → String → JobRecord → List (String × JobRecord)
  | [], i, r => [(i, r)]
  | (k, v) :: rest, i, r => if k = i then (i, r) :: rest else (k, v) :: setJob rest i r

/-- Commit one store mutation: write the document, log the event, record the
post-write table as a reader-observable snapshot. -/
def commitDoc (st : Exec) (job_id : String) (r : JobRecord) (ev : Event) : Exec :=
  let docs := setJob st.docs job_id r
  { st with docs := docs, events := st.events ++ [ev], snaps := st.snaps ++ [docs] }

/-- Log a collaborator call without touching the store. -/
def logEvent (st : Exec) (ev : Event) : Exec :=
  { st with events := st.events ++ [ev] }

/-- Python truthiness of an optional string: None and "" are falsy. -/
def truthy : Option String → Bool
  | none => false
  | some s => s != ""

/-- The str(e) of the google NotFound error raised by doc_ref.update on a
missing document. The exact wording is a collaborator detail; only the fact
that it raises matters. -/
def notFoundMsg (job_id : String) : String :=
  "404 No document to update: " ++ job_id

/-- database.Database.create_job: doc_ref.set of a fresh pending document. -/
def create_job (st : Exec) (job_id original_text : String) (mode : ProcessingMode)
    (metadata : Option Metadata) : Exec :=
  let p := utcnow st
  let r : JobRecord :=
    { job_id := job_id
      status := JobStatus.pending
      original_text := original_text
      mode := mode
      created_at := p.1
      metadata := metadata.getD []
      updated_at := none
      processing_started_at := none
      completed_at := none
      error := none
      detected_language := none
      translated_text := none
      sentiment := none
      summary := none
      entities := none }
  commitDoc p.2 job_id r (Event.storeCreate job_id)

/-- database.Database.update_job_status: builds update_data with status and
updated_at, adds error only when truthy, adds processing_started_at on
PROCESSING and completed_at on COMPLETED/FAILED, then doc_ref.update (which
raises when the document is missing). -/
def update_job_status (st : Exec) (job_id : String) (status : JobStatus)
    (err : Option String) : Except String Unit × Exec :=
  let p1 := utcnow st
  let upd1 : JobRecord → JobRecord := fun r =>
    { r with status := status, updated_at := some p1.1 }
  let upd2 : JobRecord → JobRecord := fun r =>
    if truthy err then { r with error := err } else r
  let p3 : Exec × (JobRecord → JobRecord) :=
    if status = JobStatus.processing then
      let p2 := utcnow p1.2
      (p2.2, fun r => { r with processing_started_at := some p2.1 })
    else if status = JobStatus.completed ∨ status = JobStatus.failed then
      let p2 := utcnow p1.2
      (p2.2, fun r => { r with completed_at := some p2.1 })
    else (p1.2, fun r => r)
  match lookupJob p3.1.docs job_id with
  | none => (Except.error (notFoundMsg job_id), p3.1)
  | some r =>
      (Except.ok (),
        commitDoc p3.1 job_id (p3.2 (upd2 (upd1 r)))
          (Event.storeUpdateStatus job_id status err))

/-- database.Database.save_result: one doc_ref.update writing status and all
result fields, with completed_at defaulting to utcnow() when the result has
none (Python: result.completed_at or datetime.utcnow()). -/
def save_result (st : Exec) (job_id : String) (result : ProcessingResult) :
    Except String Unit × Exec :=
  let pCa : Nat × Exec :=
    match result.completed_at with
    | some t => (t, st)
    | none => utcnow st
  let pUpd := utcnow pCa.2
  match lookupJob pUpd.2.docs job_id with
  | none => (Except.error (notFoundMsg job_id), pUpd.2)
  | some r =>
      let r1 : JobRecord :=
        { r with
          status := result.status
          detected_language := result.detected_language
          translated_text := result.translated_text
          sentiment := result.sentiment
          summary := result.summary
          entities := result.entities
          completed_at := some pCa.1
          error := result.error
          updated_at := some pUpd.1 }
      (Except.ok (), commitDoc pUpd.2 job_id r1 (Event.storeSaveResult job_id))

/-- translation_service.TranslationService.detect_and_translate, parametrised
by the config flag and the two Google Translation client calls. The client
calls may raise; detect_language yields the "language" key of the response
(none models a response without it, defaulted to "unknown"), translate_to_en
yields the "translatedText" key (defaulted to the input). The wrapper catches
every exception and returns (none, none); already-English text returns
(some "en", text) without calling translate. -/
def detect_and_translate (enabled : Bool)
    (detect_language : String → Except String (Option String))
    (translate_to_en : String → Except String (Option String))
    (text : String) : Option String × Option String :=
  if enabled = false then (none, none)
  else
    match detect_language text with
    | Except.error _ => (none, none)
    | Except.ok langKey =>
        let detected := langKey.getD "unknown"
        if detected = "en" then (some "en", some text)
        else
          match translate_to_en text with
          | Except.error _ => (none, none)
          | Except.ok trKey => (some detected, some (trKey.getD text))

/-- The external collaborators the coordinator calls: the (already wrapped)
translation function and the three NLP analyzers, which may raise. -/
structure Collaborators where
  translate : String → Option String × Option String
  analyze_sentiment : String → Except String SentimentVal
  summarize : String → Except String String
  extract_entities : String → Except String (List EntityVal)

/-- A decoded Pub/Sub message body: dict with optional job_id, text,
metadata keys (message_data.get). -/
structure MessageData where
  job_id : Option String
  text : Option String
  metadata : Option Metadata
deriving DecidableEq

/-- Python: translated_text or text — the effective text fed to the
analyzers, falling back to the original when the translated text is None or
empty (truthiness, not mere presence). -/
def orOriginal (translated : Option String) (text : String) : String :=
  match translated with
  | none => text
  | some s => if s = "" then text else s

/-- The failure handler of worker.WorkerService.process_job: persist FAILED
with str(e) as error, then re-raise. If the FAILED write itself raises, that
secondary exception propagates instead. -/
def processJobOnFail (st : Exec) (job_id : String) (e : String) :
    Except String Unit × Exec :=
  match update_job_status st job_id JobStatus.failed (some e) with
  | (Except.ok _, st1) => (Except.error e, st1)
  | (Except.error e2, st1) => (Except.error e2, st1)

/-- worker.WorkerService.process_job: the queue-path coordinator. Guard on
missing/empty job_id or text (log and return), then PROCESSING, translate,
sentiment, summary, entities on the effective text, build the result, save
it and mark COMPLETED; any exception goes through the failure handler. -/
def process_job (C : Collaborators) (st : Exec) (msg : MessageData) :
    Except String Unit × Exec :=
  let job_id := msg.job_id.getD ""
  let text := msg.text.getD ""
  let metadata := msg.metadata.getD []
  if job_id = "" ∨ text = "" then (Except.ok (), st)
  else
    match update_job_status st job_id JobStatus.processing none with
    | (Except.error e, st1) => processJobOnFail st1 job_id e
    | (Except.ok _, st1) =>
        let st2 := logEvent st1 (Event.callTranslate text)
        let tr := C.translate text
        let et := orOriginal tr.2 text
        let st3 := logEvent st2 (Event.callSentiment et)
        match C.analyze_sentiment et with
        | Except.error e => processJobOnFail st3 job_id e
        | Except.ok sentiment =>
            let st4 := logEvent st3 (Event.callSummary et)
            match C.summarize et with
            | Except.error e => processJobOnFail st4 job_id e
            | Except.ok summary =>
                let st5 := logEvent st4 (Event.callEntities et)
                match C.extract_entities et with
                | Except.error e => processJobOnFail st5 job_id e
                | Except.ok entities =>
                    let pC := utcnow st5
                    let pD := utcnow pC.2
                    let result : ProcessingResult :=
                      { job_id := job_id
                        status := JobStatus.completed
                        original_text := text
                        detected_language := tr.1
                        translated_text := tr.2
                        sentiment := some sentiment
                        summary := some summary
                        entities := some entities
                        created_at := pC.1
                        completed_at := some pD.1
                        error := none
                        metadata := metadata }
                    match save_result pD.2 job_id result with
                    | (Except.error e, st6) => processJobOnFail st6 job_id e
                    | (Except.ok _, st6) =>
                        match update_job_status st6 job_id JobStatus.completed none with
                        | (Except.error e, st7) => processJobOnFail st7 job_id e
                        | (Except.ok _, st7) => (Except.ok (), st7)

/-- The acknowledge decision of the Pub/Sub message wrapper. -/
inductive AckAction
  | ack
  | nack
deriving DecidableEq

/-- pubsub_client.PubSubSubscriber.start_listening, inner message_wrapper: decode
the payload and run the callback (process_job); ack when neither raises,
nack when either does. -/
def message_wrapper (C : Collaborators) (st : Exec)
    (decoded : Except String MessageData) : AckAction × Exec :=
  match decoded with
  | Except.error _ => (AckAction.nack, st)
  | Except.ok msg =>
      match process_job C st msg with
      | (Except.ok _, st1) => (AckAction.ack, st1)
      | (Except.error _, st1) => (AckAction.nack, st1)

/-- Config.SYNC_THRESHOLD default: 1000 characters. -/
def SYNC_THRESHOLD_DEFAULT : Nat := 1000

/-- utils.determine_processing_mode: character length at most the threshold
selects SYNC (immediate), strictly greater selects ASYNC (queued). -/
def determine_processing_mode (threshold : Nat) (text : String) : ProcessingMode :=
  if text.length ≤ threshold then ProcessingMode.sync else ProcessingMode.async

/-- models.JobResponse -/
structure JobResponse where
  job_id : String
  status : JobStatus
  mode : ProcessingMode
  created_at : Nat
  message : String
deriving DecidableEq

/-- An HTTPException surfaced by the API layer: status code and detail. -/
structure ApiError where
  code : Nat
  detail : String
deriving DecidableEq

/-- The inner exception handler of the sync branch of api.process_text:
persist FAILED with str(e), raise HTTP 500 "Processing failed". When the
FAILED write itself raises, that exception reaches the outer handler, which
raises HTTP 500 "Internal server error". -/
def processTextOnFail (st : Exec) (job_id : String) (e : String) :
    Except ApiError JobResponse × Exec :=
  match update_job_status st job_id JobStatus.failed (some e) with
  | (Except.ok _, st1) =>
      (Except.error { code := 500, detail := "Processing failed: " ++ e }, st1)
  | (Except.error e2, st1) =>
      (Except.error { code := 500, detail := "Internal server error: " ++ e2 }, st1)

/-- api.process_text: the submission endpoint. The request text is non-empty
(pydantic min_length=1) and job_id is the freshly generated id. Determine the
mode, create the pending job; in SYNC mode run the inlined coordinator
(PROCESSING, translate, analyzers, save result, COMPLETED) and return the
terminal response; in ASYNC mode publish (job_id, text, metadata) and return
a pending response without any coordinator work. -/
def process_text (threshold : Nat) (C : Collaborators) (st : Exec)
    (job_id text : String) (metadata : Option Metadata) :
    Except ApiError JobResponse × Exec :=
  let mode := determine_processing_mode threshold text
  let st1 := create_job st job_id text mode metadata
  if mode = ProcessingMode.sync then
    match update_job_status st1 job_id JobStatus.processing none with
    | (Except.error e, st2) =>
        (Except.error { code := 500, detail := "Internal server error: " ++ e }, st2)
    | (Except.ok _, st2) =>
        let st3 := logEvent st2 (Event.callTranslate text)
        let tr := C.translate text
        let et := orOriginal tr.2 text
        let st4 := logEvent st3 (Event.callSentiment et)
        match C.analyze_sentiment et with
        | Except.error e => processTextOnFail st4 job_id e
        | Except.ok sentiment =>
            let st5 := logEvent st4 (Event.callSummary et)
            match C.summarize et with
            | Except.error e => processTextOnFail st5 job_id e
            | Except.ok summary =>
                let st6 := logEvent st5 (Event.callEntities et)
                match C.extract_entities et with
                | Except.error e => processTextOnFail st6 job_id e
                | Except.ok entities =>
                    let pC := utcnow st6
                    let pD := utcnow pC.2
                    let result : ProcessingResult :=
                      { job_id := job_id
                        status := JobStatus.completed
                        original_text := text
                        detected_language := tr.1
                        translated_text := tr.2
                        sentiment := some sentiment
                        summary := some summary
                        entities := some entities
                        created_at := pC.1
                        completed_at := some pD.1
                        error := none
                        metadata := metadata.getD [] }
                    match save_result pD.2 job_id result with
                    | (Except.error e, st7) => processTextOnFail st7 job_id e
                    | (Except.ok _, st7) =>
                        match update_job_status st7 job_id JobStatus.completed none with
                        | (Except.error e, st8) => processTextOnFail st8 job_id e
                        | (Except.ok _, st8) =>
                            (Except.ok
                              { job_id := job_id
                                status := JobStatus.completed
                                mode := mode
                                created_at := result.created_at
                                message := "Text processed successfully" }, st8)
  else
    let st2 := logEvent st1 (Event.publish job_id text (metadata.getD []))
    let p := utcnow st2
    (Except.ok
      { job_id := job_id
        status := JobStatus.pending
        mode := mode
        created_at := p.1
        message := "Job queued for asynchronous processing" }, p.2)

/-- The statuses of one job that a reader could observe across the run: the
status of the job in each successive store snapshot. -/
def statusHistory (st : Exec) (job_id : String) : List JobStatus :=
  st.snaps.filterMap (fun docs => (lookupJob docs job_id).map JobRecord.status)

/-- Collapse consecutive duplicate statuses, so that a repeated write of the
same status does not count as a transition. -/
def dedup : List JobStatus → List JobStatus
  | [] => []
  | [a] => [a]
  | a :: b :: rest => if a = b then dedup (b :: rest) else a :: dedup (b :: rest)

end TextIntel

namespace TextIntel

theorem lookupJob_setJob_self (docs : List (String × JobRecord)) (i : String) (r : JobRecord) :
    lookupJob (setJob docs i r) i = some r := by
  induction docs with
  | nil => simp [setJob, lookupJob]
  | cons kv rest ih =>
      obtain ⟨k, v⟩ := kv
      by_cases h : k = i <;> simp [setJob, lookupJob, h, ih]

/-- A worker-path run of the coordinator on a fresh execution state: the
store table and clock as the queue consumer finds them, an empty trace, and
a well-formed message carrying the given job id and text. -/
def runWorker (C : Collaborators) (docs0 : List (String × JobRecord)) (clock0 : Nat)
    (jid text : String) (md : Option Metadata) : Except String Unit × Exec :=
  process_job C { docs := docs0, clock := clock0, events := [], snaps := [] }
    { job_id := some jid, text := some text, metadata := md }

/-- A submission-endpoint run on a fresh execution state. -/
def runApi (threshold : Nat) (C : Collaborators) (docs0 : List (String × JobRecord))
    (clock0 : Nat) (jid text : String) (md : Option Metadata) :
    Except ApiError JobResponse × Exec :=
  process_text threshold C { docs := docs0, clock := clock0, events := [], snaps := [] }
    jid text md

/-- A pending job document as database.create_job writes it. -/
def freshJob (jid text : String) : JobRecord :=
  { job_id := jid
    status := JobStatus.pending
    original_text := text
    mode := ProcessingMode.async
    created_at := 0
    metadata := []
    updated_at := none
    processing_started_at := none
    completed_at := none
    error := none
    detected_language := none
    translated_text := none
    sentiment := none
    summary := none
    entities := none }

/-- Stub collaborators: translation detects English and echoes the text,
analyzers return fixed values. -/
def stubCollab : Collaborators :=
  { translate := fun t => (some "en", some t)
    analyze_sentiment := fun _ => Except.ok { label := "neutral" }
    summarize := fun _ => Except.ok "stub summary"
    extract_entities := fun _ => Except.ok [] }

/-- Stub collaborators whose sentiment analyzer raises with message boom. -/
def boomCollab : Collaborators :=
  { stubCollab with analyze_sentiment := fun _ => Except.error "boom" }

/-- Stub collaborators whose sentiment analyzer raises with an empty message. -/
def emptyMsgCollab : Collaborators :=
  { stubCollab with analyze_sentiment := fun _ => Except.error "" }

/-- Stub collaborators whose translation is unavailable. -/
def noTransCollab : Collaborators :=
  { stubCollab with translate := fun _ => (none, none) }

/-- Stub collaborators whose translation returns an empty translated text. -/
def emptyTransCollab : Collaborators :=
  { stubCollab with translate := fun _ => (some "es", some "") }

/-- Stub collaborators whose translation is the real wrapper over a client
that detects English (so translation is skipped). -/
def enCollab : Collaborators :=
  { stubCollab with
      translate := detect_and_translate true
        (fun _ => Except.ok (some "en")) (fun _ => Except.ok none) }

/-- Claim C4: the mode selector is pure and total; length at most the
threshold (default 1000) selects Immediate (SYNC), strictly greater selects
Queued (ASYNC), and length exactly the threshold selects Immediate; the
empty string at the default threshold is Immediate. -/
theorem C4_mode_selector (threshold : Nat) (text : String) :
    (determine_processing_mode threshold text = ProcessingMode.sync ↔
      text.length ≤ threshold)
    ∧ (determine_processing_mode threshold text = ProcessingMode.async ↔
      threshold < text.length)
    ∧ (text.length = threshold →
      determine_processing_mode threshold text = ProcessingMode.sync)
    ∧ determine_processing_mode SYNC_THRESHOLD_DEFAULT "" = ProcessingMode.sync := by
  by_cases h : text.length ≤ threshold
  · have h2 : ¬ threshold < text.length := by omega
    simp [determine_processing_mode, h, h2, SYNC_THRESHOLD_DEFAULT]
  · have h2 : threshold < text.length := by omega
    have h3 : text.length ≠ threshold := by omega
    simp [determine_processing_mode, h, h2, h3, SYNC_THRESHOLD_DEFAULT]

/-- Witness for C4 at the default threshold. -/
theorem C4_mode_selector_witness :
    determine_processing_mode 1000 "hello world" = ProcessingMode.sync ∧
      ("hello world" : String).length ≤ 1000 :=
  ⟨(C4_mode_selector 1000 "hello world").1.mpr (by decide), by decide⟩

/-- Claim C9: a queue message whose job_id or text is absent or empty makes
process_job log and return without any store operation or status transition
(the execution state is unchanged, so no event and no snapshot is added),
and the message wrapper then acknowledges the message. -/
theorem C9_malformed_message_guard (C : Collaborators) (st : Exec) (msg : MessageData)
    (hbad : msg.job_id.getD "" = "" ∨ msg.text.getD "" = "") :
    process_job C st msg = (Except.ok (), st)
    ∧ message_wrapper C st (Except.ok msg) = (AckAction.ack, st) := by
  have h1 : process_job C st msg = (Except.ok (), st) := by
    rcases hbad with h | h <;> simp [process_job, h]
  exact ⟨h1, by simp [message_wrapper, h1]⟩

/-- Witness for C9: a message with an absent text field. -/
theorem C9_malformed_message_guard_witness :
    process_job stubCollab { docs := [], clock := 0, events := [], snaps := [] }
        { job_id := some "job-1", text := none, metadata := none }
      = (Except.ok (), { docs := [], clock := 0, events := [], snaps := [] })
    ∧ message_wrapper stubCollab { docs := [], clock := 0, events := [], snaps := [] }
        (Except.ok { job_id := some "job-1", text := none, metadata := none })
      = (AckAction.ack, { docs := [], clock := 0, events := [], snaps := [] }) :=
  C9_malformed_message_guard stubCollab
    { docs := [], clock := 0, events := [], snaps := [] }
    { job_id := some "job-1", text := none, metadata := none } (by simp)

/-- Claim C6: a submission whose selected mode is Queued creates the pending
job, publishes (jobId, text, metadata) to the queue and returns a Pending
response; the trace holds no coordinator work at all — no status update, no
translation call, no analyzer call — and the persisted job stays Pending. -/
theorem C6_queued_path (threshold : Nat) (C : Collaborators)
    (docs0 : List (String × JobRecord)) (clock0 : Nat) (jid text : String)
    (md : Option Metadata) (hlen : threshold < text.length) :
    (runApi threshold C docs0 clock0 jid text md).1
      = Except.ok
          { job_id := jid
            status := JobStatus.pending
            mode := ProcessingMode.async
            created_at := clock0 + 1
            message := "Job queued for asynchronous processing" }
    ∧ (runApi threshold C docs0 clock0 jid text md).2.events
      = [Event.storeCreate jid, Event.publish jid text (md.getD [])]
    ∧ (lookupJob (runApi threshold C docs0 clock0 jid text md).2.docs jid).map
        JobRecord.status = some JobStatus.pending := by
  have h : ¬ text.length ≤ threshold := by omega
  refine ⟨?_, ?_, ?_⟩ <;>
    simp [runApi, process_text, determine_processing_mode, h, create_job, commitDoc,
      logEvent, utcnow, lookupJob_setJob_self]

/-- Witness for C6: a one-character text over threshold 0. -/
theorem C6_queued_path_witness :
    (0 : Nat) < ("x" : String).length
    ∧ (runApi 0 stubCollab [] 5 "job-1" "x" none).1
      = Except.ok
          { job_id := "job-1"
            status := JobStatus.pending
            mode := ProcessingMode.async
            created_at := 6
            message := "Job queued for asynchronous processing" }
    ∧ (runApi 0 stubCollab [] 5 "job-1" "x" none).2.events
      = [Event.storeCreate "job-1", Event.publish "job-1" "x" []] :=
  ⟨by decide,
    (C6_queued_path 0 stubCollab [] 5 "job-1" "x" none (by decide)).1,
    (C6_queued_path 0 stubCollab [] 5 "job-1" "x" none (by decide)).2.1⟩

end TextIntel

namespace TextIntel

/-- Claim C1: a coordinator-driven job whose document is Pending when the
queue message arrives observes, across every store snapshot of the run, a
status path along Pending, then Processing, then exactly one of Completed or
Failed — a repeated write of the same terminal status is not a transition —
and the very first call of the run is the persisted PROCESSING update,
before any collaborator (translate, sentiment, summary, entities) call. -/
theorem C1_status_lifecycle (C : Collaborators) (jid text : String) (md : Option Metadata)
    (docs0 : List (String × JobRecord)) (clock0 : Nat) (r0 : JobRecord)
    (hjid : jid ≠ "") (htext : text ≠ "")
    (hlook : lookupJob docs0 jid = some r0) (hst : r0.status = JobStatus.pending) :
    (dedup (r0.status :: statusHistory (runWorker C docs0 clock0 jid text md).2 jid)
        = [JobStatus.pending, JobStatus.processing, JobStatus.completed]
      ∨ dedup (r0.status :: statusHistory (runWorker C docs0 clock0 jid text md).2 jid)
        = [JobStatus.pending, JobStatus.processing, JobStatus.failed])
    ∧ (runWorker C docs0 clock0 jid text md).2.events.head?
        = some (Event.storeUpdateStatus jid JobStatus.processing none) := by
  have hg : ¬ (jid = "" ∨ text = "") := by simp [hjid, htext]
  rcases hs : C.analyze_sentiment (orOriginal (C.translate text).2 text) with e | sv
  · refine ⟨Or.inr ?_, ?_⟩ <;>
      simp [runWorker, process_job, update_job_status, save_result, processJobOnFail,
        commitDoc, logEvent, utcnow, statusHistory, lookupJob_setJob_self, hlook, hg, hs,
        truthy, dedup, hst, apply_ite JobRecord.status]
  · rcases hsu : C.summarize (orOriginal (C.translate text).2 text) with e | su
    · refine ⟨Or.inr ?_, ?_⟩ <;>
        simp [runWorker, process_job, update_job_status, save_result, processJobOnFail,
          commitDoc, logEvent, utcnow, statusHistory, lookupJob_setJob_self, hlook, hg,
          hs, hsu, truthy, dedup, hst, apply_ite JobRecord.status]
    · rcases hen : C.extract_entities (orOriginal (C.translate text).2 text) with e | ev
      · refine ⟨Or.inr ?_, ?_⟩ <;>
          simp [runWorker, process_job, update_job_status, save_result, processJobOnFail,
            commitDoc, logEvent, utcnow, statusHistory, lookupJob_setJob_self, hlook, hg,
            hs, hsu, hen, truthy, dedup, hst, apply_ite JobRecord.status]
      · refine ⟨Or.inl ?_, ?_⟩ <;>
          simp [runWorker, process_job, update_job_status, save_result, processJobOnFail,
            commitDoc, logEvent, utcnow, statusHistory, lookupJob_setJob_self, hlook, hg,
            hs, hsu, hen, truthy, dedup, hst, apply_ite JobRecord.status]

/-- Witness for C1: stub collaborators on a pending job. -/
theorem C1_status_lifecycle_witness :
    ("job-1" : String) ≠ "" ∧ ("hola" : String) ≠ ""
    ∧ lookupJob [("job-1", freshJob "job-1" "hola")] "job-1"
        = some (freshJob "job-1" "hola")
    ∧ (freshJob "job-1" "hola").status = JobStatus.pending
    ∧ ((dedup ((freshJob "job-1" "hola").status ::
          statusHistory (runWorker stubCollab [("job-1", freshJob "job-1" "hola")] 1
            "job-1" "hola" none).2 "job-1")
          = [JobStatus.pending, JobStatus.processing, JobStatus.completed]
        ∨ dedup ((freshJob "job-1" "hola").status ::
            statusHistory (runWorker stubCollab [("job-1", freshJob "job-1" "hola")] 1
              "job-1" "hola" none).2 "job-1")
          = [JobStatus.pending, JobStatus.processing, JobStatus.failed])
      ∧ (runWorker stubCollab [("job-1", freshJob "job-1" "hola")] 1
          "job-1" "hola" none).2.events.head?
        = some (Event.storeUpdateStatus "job-1" JobStatus.processing none)) :=
  ⟨by decide, by decide, by decide, by decide,
    C1_status_lifecycle stubCollab "job-1" "hola" none
      [("job-1", freshJob "job-1" "hola")] 1 (freshJob "job-1" "hola")
      (by decide) (by decide) (by decide) (by decide)⟩

/-- Claim C7: when translation is unavailable — detectAndTranslate returns
(absent, absent) — the effective text equals the original text, the three
analyzers are invoked on the original text, the job still completes when
they all succeed, and the persisted detectedLanguage and translatedText are
absent. -/
theorem C7_translation_unavailable (C : Collaborators) (jid text : String)
    (md : Option Metadata) (docs0 : List (String × JobRecord)) (clock0 : Nat)
    (r0 : JobRecord) (sv : SentimentVal) (su : String) (ev : List EntityVal)
    (hjid : jid ≠ "") (htext : text ≠ "")
    (hlook : lookupJob docs0 jid = some r0)
    (htr : C.translate text = (none, none))
    (hs : C.analyze_sentiment text = Except.ok sv)
    (hsu : C.summarize text = Except.ok su)
    (hen : C.extract_entities text = Except.ok ev) :
    orOriginal (C.translate text).2 text = text
    ∧ (runWorker C docs0 clock0 jid text md).1 = Except.ok ()
    ∧ (lookupJob (runWorker C docs0 clock0 jid text md).2.docs jid).map
        (fun r => (r.status, r.detected_language, r.translated_text))
      = some (JobStatus.completed, none, none)
    ∧ Event.callSentiment text ∈ (runWorker C docs0 clock0 jid text md).2.events
    ∧ Event.callSummary text ∈ (runWorker C docs0 clock0 jid text md).2.events
    ∧ Event.callEntities text ∈ (runWorker C docs0 clock0 jid text md).2.events := by
  have hg : ¬ (jid = "" ∨ text = "") := by simp [hjid, htext]
  refine ⟨by simp [htr, orOriginal], ?_, ?_, ?_, ?_, ?_⟩ <;>
    simp [runWorker, process_job, update_job_status, save_result, processJobOnFail,
      commitDoc, logEvent, utcnow, lookupJob_setJob_self, hlook, hg, htr, orOriginal,
      hs, hsu, hen, truthy]

/-- Witness for C7: stubs whose translation is unavailable. -/
theorem C7_translation_unavailable_witness :
    orOriginal (noTransCollab.translate "hola").2 "hola" = "hola"
    ∧ (runWorker noTransCollab [("job-1", freshJob "job-1" "hola")] 1
        "job-1" "hola" none).1 = Except.ok ()
    ∧ (lookupJob (runWorker noTransCollab [("job-1", freshJob "job-1" "hola")] 1
          "job-1" "hola" none).2.docs "job-1").map
        (fun r => (r.status, r.detected_language, r.translated_text))
      = some (JobStatus.completed, none, none) :=
  ⟨(C7_translation_unavailable noTransCollab "job-1" "hola" none
      [("job-1", freshJob "job-1" "hola")] 1 (freshJob "job-1" "hola")
      { label := "neutral" } "stub summary" []
      (by decide) (by decide) (by decide) rfl rfl rfl rfl).1,
   (C7_translation_unavailable noTransCollab "job-1" "hola" none
      [("job-1", freshJob "job-1" "hola")] 1 (freshJob "job-1" "hola")
      { label := "neutral" } "stub summary" []
      (by decide) (by decide) (by decide) rfl rfl rfl rfl).2.1,
   (C7_translation_unavailable noTransCollab "job-1" "hola" none
      [("job-1", freshJob "job-1" "hola")] 1 (freshJob "job-1" "hola")
      { label := "neutral" } "stub summary" []
      (by decide) (by decide) (by decide) rfl rfl rfl rfl).2.2.1⟩

/-- Claim C10: an empty translated text is treated as absent by the
effective-text computation (Python truthiness): the analyzers are invoked on
the original text, not on the empty string. -/
theorem C10_empty_translation_truthiness (C : Collaborators) (jid text : String)
    (md : Option Metadata) (docs0 : List (String × JobRecord)) (clock0 : Nat)
    (r0 : JobRecord) (lang : Option String) (sv : SentimentVal) (su : String)
    (hjid : jid ≠ "") (htext : text ≠ "")
    (hlook : lookupJob docs0 jid = some r0)
    (htr : C.translate text = (lang, some ""))
    (hs : C.analyze_sentiment text = Except.ok sv)
    (hsu : C.summarize text = Except.ok su) :
    orOriginal (C.translate text).2 text = text
    ∧ Event.callSentiment text ∈ (runWorker C docs0 clock0 jid text md).2.events
    ∧ Event.callSummary text ∈ (runWorker C docs0 clock0 jid text md).2.events
    ∧ Event.callEntities text ∈ (runWorker C docs0 clock0 jid text md).2.events := by
  have hg : ¬ (jid = "" ∨ text = "") := by simp [hjid, htext]
  rcases hen : C.extract_entities text with e | ev
  · refine ⟨by simp [htr, orOriginal], ?_, ?_, ?_⟩ <;>
      simp [runWorker, process_job, update_job_status, save_result, processJobOnFail,
        commitDoc, logEvent, utcnow, lookupJob_setJob_self, hlook, hg, htr, orOriginal,
        hs, hsu, hen, truthy]
  · refine ⟨by simp [htr, orOriginal], ?_, ?_, ?_⟩ <;>
      simp [runWorker, process_job, update_job_status, save_result, processJobOnFail,
        commitDoc, logEvent, utcnow, lookupJob_setJob_self, hlook, hg, htr, orOriginal,
        hs, hsu, hen, truthy]

/-- Witness for C10: translation yields (es, empty string). -/
theorem C10_empty_translation_truthiness_witness :
    orOriginal (emptyTransCollab.translate "hola").2 "hola" = "hola"
    ∧ Event.callSentiment "hola" ∈ (runWorker emptyTransCollab
        [("job-1", freshJob "job-1" "hola")] 1 "job-1" "hola" none).2.events
    ∧ Event.callSummary "hola" ∈ (runWorker emptyTransCollab
        [("job-1", freshJob "job-1" "hola")] 1 "job-1" "hola" none).2.events
    ∧ Event.callEntities "hola" ∈ (runWorker emptyTransCollab
        [("job-1", freshJob "job-1" "hola")] 1 "job-1" "hola" none).2.events :=
  C10_empty_translation_truthiness emptyTransCollab "job-1" "hola" none
    [("job-1", freshJob "job-1" "hola")] 1 (freshJob "job-1" "hola")
    (some "es") { label := "neutral" } "stub summary"
    (by decide) (by decide) (by decide) rfl rfl rfl

end TextIntel

namespace TextIntel

/-- Claim C2 (amended): when an analyzer raises with a non-empty message e,
the coordinator persists Failed with error e before re-raising e, and the
analyzers after the failing one are never invoked. (The non-emptiness
proviso is forced by the truthiness test on error in update_job_status.) -/
theorem C2_enrichment_failure_persisted (C : Collaborators) (jid text : String)
    (md : Option Metadata) (docs0 : List (String × JobRecord)) (clock0 : Nat)
    (r0 : JobRecord) (hjid : jid ≠ "") (htext : text ≠ "")
    (hlook : lookupJob docs0 jid = some r0) :
    (∀ e, e ≠ "" →
      C.analyze_sentiment (orOriginal (C.translate text).2 text) = Except.error e →
      (runWorker C docs0 clock0 jid text md).1 = Except.error e
      ∧ (lookupJob (runWorker C docs0 clock0 jid text md).2.docs jid).map
          (fun r => (r.status, r.error)) = some (JobStatus.failed, some e)
      ∧ (∀ s, Event.callSummary s ∉ (runWorker C docs0 clock0 jid text md).2.events)
      ∧ (∀ s, Event.callEntities s ∉ (runWorker C docs0 clock0 jid text md).2.events))
    ∧ (∀ sv e, e ≠ "" →
      C.analyze_sentiment (orOriginal (C.translate text).2 text) = Except.ok sv →
      C.summarize (orOriginal (C.translate text).2 text) = Except.error e →
      (runWorker C docs0 clock0 jid text md).1 = Except.error e
      ∧ (lookupJob (runWorker C docs0 clock0 jid text md).2.docs jid).map
          (fun r => (r.status, r.error)) = some (JobStatus.failed, some e)
      ∧ (∀ s, Event.callEntities s ∉ (runWorker C docs0 clock0 jid text md).2.events))
    ∧ (∀ sv su e, e ≠ "" →
      C.analyze_sentiment (orOriginal (C.translate text).2 text) = Except.ok sv →
      C.summarize (orOriginal (C.translate text).2 text) = Except.ok su →
      C.extract_entities (orOriginal (C.translate text).2 text) = Except.error e →
      (runWorker C docs0 clock0 jid text md).1 = Except.error e
      ∧ (lookupJob (runWorker C docs0 clock0 jid text md).2.docs jid).map
          (fun r => (r.status, r.error)) = some (JobStatus.failed, some e)) := by
  have hg : ¬ (jid = "" ∨ text = "") := by simp [hjid, htext]
  refine ⟨?_, ?_, ?_⟩
  · intro e he hs
    refine ⟨?_, ?_, ?_, ?_⟩ <;>
      simp [runWorker, process_job, update_job_status, save_result, processJobOnFail,
        commitDoc, logEvent, utcnow, lookupJob_setJob_self, hlook, hg, hs, truthy, he]
  · intro sv e he hs hsu
    refine ⟨?_, ?_, ?_⟩ <;>
      simp [runWorker, process_job, update_job_status, save_result, processJobOnFail,
        commitDoc, logEvent, utcnow, lookupJob_setJob_self, hlook, hg, hs, hsu, truthy, he]
  · intro sv su e he hs hsu hen
    refine ⟨?_, ?_⟩ <;>
      simp [runWorker, process_job, update_job_status, save_result, processJobOnFail,
        commitDoc, logEvent, utcnow, lookupJob_setJob_self, hlook, hg, hs, hsu, hen,
        truthy, he]

/-- Witness for C2: the sentiment analyzer raises boom; the job ends Failed
with error boom, boom is re-raised, and the later analyzers never run. -/
theorem C2_enrichment_failure_persisted_witness :
    (runWorker boomCollab [("job-1", freshJob "job-1" "hola")] 1
        "job-1" "hola" none).1 = Except.error "boom"
    ∧ (lookupJob (runWorker boomCollab [("job-1", freshJob "job-1" "hola")] 1
          "job-1" "hola" none).2.docs "job-1").map (fun r => (r.status, r.error))
      = some (JobStatus.failed, some "boom")
    ∧ Event.callSummary "hola" ∉ (runWorker boomCollab
        [("job-1", freshJob "job-1" "hola")] 1 "job-1" "hola" none).2.events
    ∧ Event.callEntities "hola" ∉ (runWorker boomCollab
        [("job-1", freshJob "job-1" "hola")] 1 "job-1" "hola" none).2.events := by
  have h := (C2_enrichment_failure_persisted boomCollab "job-1" "hola" none
      [("job-1", freshJob "job-1" "hola")] 1 (freshJob "job-1" "hola")
      (by decide) (by decide) (by decide)).1 "boom" (by decide) rfl
  exact ⟨h.1, h.2.1, h.2.2.1 "hola", h.2.2.2 "hola"⟩

/-- Counterexample to C2 as stated: an analyzer raising with an empty
description leaves the persisted error field unset (Firestore update only
writes error when the string is truthy), so the job shows Failed with no
error rather than with the (empty) failure description. -/
theorem C2_counterexample :
    (lookupJob (runWorker emptyMsgCollab [("job-1", freshJob "job-1" "hola")] 1
        "job-1" "hola" none).2.docs "job-1").map (fun r => (r.status, r.error))
      = some (JobStatus.failed, none)
    ∧ (runWorker emptyMsgCollab [("job-1", freshJob "job-1" "hola")] 1
        "job-1" "hola" none).1 = Except.error ""
    ∧ some (JobStatus.failed, (none : Option String))
      ≠ some (JobStatus.failed, some "") :=
  ⟨rfl, rfl, by decide⟩

/-- Whether one store snapshot satisfies the result-field atomicity contract
for the given job: Completed only with sentiment, summary and entities all
present; any other status only with all five result fields absent. -/
def resultFieldsConsistent (jid : String) (docs : List (String × JobRecord)) : Bool :=
  match lookupJob docs jid with
  | none => true
  | some r =>
      match r.status with
      | JobStatus.completed => r.sentiment.isSome && r.summary.isSome && r.entities.isSome
      | _ => r.sentiment.isNone && r.summary.isNone && r.entities.isNone
          && r.translated_text.isNone && r.detected_language.isNone

/-- Claim C3: starting from a pending job with no result fields, every store
snapshot of a coordinator run satisfies the atomicity contract: a reader can
never observe Completed with sentiment, summary or entities missing, and
never observe a non-Completed status (in particular Failed) with any result
field populated. -/
theorem C3_results_atomic_with_completed (C : Collaborators) (jid text : String)
    (md : Option Metadata) (docs0 : List (String × JobRecord)) (clock0 : Nat)
    (r0 : JobRecord) (hjid : jid ≠ "") (htext : text ≠ "")
    (hlook : lookupJob docs0 jid = some r0) (_hst : r0.status = JobStatus.pending)
    (hsen : r0.sentiment = none) (hsum : r0.summary = none) (hent : r0.entities = none)
    (htt : r0.translated_text = none) (hdl : r0.detected_language = none) :
    ((runWorker C docs0 clock0 jid text md).2.snaps.all
      (fun docs => resultFieldsConsistent jid docs)) = true := by
  have hg : ¬ (jid = "" ∨ text = "") := by simp [hjid, htext]
  rcases hs : C.analyze_sentiment (orOriginal (C.translate text).2 text) with e | sv
  · by_cases he : e = "" <;>
      simp [runWorker, process_job, update_job_status, save_result, processJobOnFail,
        commitDoc, logEvent, utcnow, lookupJob_setJob_self, hlook, hg, hs, truthy, he,
        resultFieldsConsistent, hsen, hsum, hent, htt, hdl]
  · rcases hsu : C.summarize (orOriginal (C.translate text).2 text) with e | su
    · by_cases he : e = "" <;>
        simp [runWorker, process_job, update_job_status, save_result, processJobOnFail,
          commitDoc, logEvent, utcnow, lookupJob_setJob_self, hlook, hg, hs, hsu, truthy,
          he, resultFieldsConsistent, hsen, hsum, hent, htt, hdl]
    · rcases hen : C.extract_entities (orOriginal (C.translate text).2 text) with e | ev
      · by_cases he : e = "" <;>
          simp [runWorker, process_job, update_job_status, save_result, processJobOnFail,
            commitDoc, logEvent, utcnow, lookupJob_setJob_self, hlook, hg, hs, hsu, hen,
            truthy, he, resultFieldsConsistent, hsen, hsum, hent, htt, hdl]
      · simp [runWorker, process_job, update_job_status, save_result, processJobOnFail,
          commitDoc, logEvent, utcnow, lookupJob_setJob_self, hlook, hg, hs, hsu, hen,
          truthy, resultFieldsConsistent, hsen, hsum, hent, htt, hdl]

/-- Witness for C3: stub collaborators on a pending job. -/
theorem C3_results_atomic_with_completed_witness :
    ((runWorker stubCollab [("job-1", freshJob "job-1" "hola")] 1
        "job-1" "hola" none).2.snaps.all
      (fun docs => resultFieldsConsistent "job-1" docs)) = true :=
  C3_results_atomic_with_completed stubCollab "job-1" "hola" none
    [("job-1", freshJob "job-1" "hola")] 1 (freshJob "job-1" "hola")
    (by decide) (by decide) (by decide) (by decide) (by decide) (by decide)
    (by decide) (by decide) (by decide)

end TextIntel

namespace TextIntel

/-- Whether one store snapshot satisfies the completedAt contract for the
given job: completed_at present exactly when the status is terminal. -/
def completedAtConsistent (jid : String) (docs : List (String × JobRecord)) : Bool :=
  match lookupJob docs jid with
  | none => true
  | some r =>
      r.completed_at.isSome
        == (r.status == JobStatus.completed || r.status == JobStatus.failed)

/-- Claim C5 (amended): across every store snapshot of a submission-endpoint
run, completedAt is present if and only if the status is Completed or Failed
— never while Pending or Processing. (The stated set-exactly-once part
fails: on the success path save_result and the final COMPLETED update each
write completedAt, see the counterexample.) -/
theorem C5_completedAt_iff_terminal (threshold : Nat) (C : Collaborators)
    (docs0 : List (String × JobRecord)) (clock0 : Nat) (jid text : String)
    (md : Option Metadata) :
    ((runApi threshold C docs0 clock0 jid text md).2.snaps.all
      (fun docs => completedAtConsistent jid docs)) = true := by
  by_cases hmode : text.length ≤ threshold
  · rcases hs : C.analyze_sentiment (orOriginal (C.translate text).2 text) with e | sv
    · by_cases he : e = "" <;>
        simp [runApi, process_text, determine_processing_mode, hmode, create_job,
          update_job_status, save_result, processTextOnFail, commitDoc, logEvent, utcnow,
          lookupJob_setJob_self, hs, truthy, he, completedAtConsistent]
    · rcases hsu : C.summarize (orOriginal (C.translate text).2 text) with e | su
      · by_cases he : e = "" <;>
          simp [runApi, process_text, determine_processing_mode, hmode, create_job,
            update_job_status, save_result, processTextOnFail, commitDoc, logEvent,
            utcnow, lookupJob_setJob_self, hs, hsu, truthy, he, completedAtConsistent]
      · rcases hen : C.extract_entities (orOriginal (C.translate text).2 text) with e | ev
        · by_cases he : e = "" <;>
            simp [runApi, process_text, determine_processing_mode, hmode, create_job,
              update_job_status, save_result, processTextOnFail, commitDoc, logEvent,
              utcnow, lookupJob_setJob_self, hs, hsu, hen, truthy, he,
              completedAtConsistent]
        · simp [runApi, process_text, determine_processing_mode, hmode, create_job,
            update_job_status, save_result, processTextOnFail, commitDoc, logEvent,
            utcnow, lookupJob_setJob_self, hs, hsu, hen, truthy, completedAtConsistent]
  · simp [runApi, process_text, determine_processing_mode, hmode, create_job, commitDoc,
      logEvent, utcnow, lookupJob_setJob_self, completedAtConsistent]

/-- Counterexample to C5 as stated: on the success path completedAt is
written twice — by save_result and again by the final COMPLETED status
update — with two different timestamps, so it is not set exactly once: two
successive snapshots both show Completed but different completedAt values. -/
theorem C5_counterexample :
    ((runApi 1000 stubCollab [] 0 "job-1" "hola" none).2.snaps[2]?.bind
        (fun d => lookupJob d "job-1")).map (fun r => (r.status, r.completed_at))
      = some (JobStatus.completed, some 4)
    ∧ ((runApi 1000 stubCollab [] 0 "job-1" "hola" none).2.snaps[3]?.bind
        (fun d => lookupJob d "job-1")).map (fun r => (r.status, r.completed_at))
      = some (JobStatus.completed, some 7)
    ∧ (some 4 : Option Nat) ≠ some 7 :=
  ⟨rfl, rfl, by decide⟩

/-- Claim C8 (amended): detectedLanguage and translatedText are absent
whenever translation is disabled by configuration or detection/translation
raised; but in the already-English case they are persisted as "en" and the
original text (see the counterexample), so "skipped because already
English" does not leave them absent. -/
theorem C8_translation_fields_absent (d t : String → Except String (Option String))
    (C : Collaborators) (jid text : String) (md : Option Metadata)
    (docs0 : List (String × JobRecord)) (clock0 : Nat) (r0 : JobRecord)
    (hjid : jid ≠ "") (htext : text ≠ "")
    (hlook : lookupJob docs0 jid = some r0)
    (hdl : r0.detected_language = none) (htt : r0.translated_text = none)
    (htr : C.translate text = (none, none)) :
    detect_and_translate false d t text = (none, none)
    ∧ (∀ e, d text = Except.error e →
        detect_and_translate true d t text = (none, none))
    ∧ (∀ lang e, d text = Except.ok lang → lang.getD "unknown" ≠ "en" →
        t text = Except.error e → detect_and_translate true d t text = (none, none))
    ∧ (lookupJob (runWorker C docs0 clock0 jid text md).2.docs jid).map
        (fun r => (r.detected_language, r.translated_text)) = some (none, none) := by
  have hg : ¬ (jid = "" ∨ text = "") := by simp [hjid, htext]
  refine ⟨by simp [detect_and_translate], ?_, ?_, ?_⟩
  · intro e hd
    simp [detect_and_translate, hd]
  · intro lang e hd hlang ht
    simp [detect_and_translate, hd, hlang, ht]
  · rcases hs : C.analyze_sentiment text with e | sv
    · by_cases he : e = "" <;>
        simp [runWorker, process_job, update_job_status, save_result, processJobOnFail,
          commitDoc, logEvent, utcnow, lookupJob_setJob_self, hlook, hg, hs, truthy, he,
          htr, orOriginal, hdl, htt]
    · rcases hsu : C.summarize text with e | su
      · by_cases he : e = "" <;>
          simp [runWorker, process_job, update_job_status, save_result, processJobOnFail,
            commitDoc, logEvent, utcnow, lookupJob_setJob_self, hlook, hg, hs, hsu,
            truthy, he, htr, orOriginal, hdl, htt]
      · rcases hen : C.extract_entities text with e | ev
        · by_cases he : e = "" <;>
            simp [runWorker, process_job, update_job_status, save_result,
              processJobOnFail, commitDoc, logEvent, utcnow, lookupJob_setJob_self,
              hlook, hg, hs, hsu, hen, truthy, he, htr, orOriginal, hdl, htt]
        · simp [runWorker, process_job, update_job_status, save_result, processJobOnFail,
            commitDoc, logEvent, utcnow, lookupJob_setJob_self, hlook, hg, hs, hsu, hen,
            truthy, htr, orOriginal, hdl, htt]

/-- Witness for C8 (amended): disabled config, a raising detector, and a
full run with unavailable translation persisting absent fields. -/
theorem C8_translation_fields_absent_witness :
    detect_and_translate false (fun _ => Except.error "x") (fun _ => Except.ok none)
        "hola" = (none, none)
    ∧ detect_and_translate true (fun _ => Except.error "x") (fun _ => Except.ok none)
        "hola" = (none, none)
    ∧ (lookupJob (runWorker noTransCollab [("job-1", freshJob "job-1" "hola")] 1
          "job-1" "hola" none).2.docs "job-1").map
        (fun r => (r.detected_language, r.translated_text)) = some (none, none) := by
  have h := C8_translation_fields_absent (fun _ => Except.error "x")
    (fun _ => Except.ok none) noTransCollab "job-1" "hola" none
    [("job-1", freshJob "job-1" "hola")] 1 (freshJob "job-1" "hola")
    (by decide) (by decide) (by decide) (by decide) (by decide) rfl
  exact ⟨h.1, h.2.1 "x" rfl, h.2.2.2⟩

/-- Counterexample to C8 as stated: for already-English text translation is
skipped, yet detect_and_translate returns ("en", original text) and the run
persists detectedLanguage = "en" and translatedText = the original text —
not absent. -/
theorem C8_counterexample :
    detect_and_translate true (fun _ => Except.ok (some "en"))
        (fun _ => Except.ok none) "hello" = (some "en", some "hello")
    ∧ (lookupJob (runWorker enCollab [("job-1", freshJob "job-1" "hello")] 1
          "job-1" "hello" none).2.docs "job-1").map
        (fun r => (r.status, r.detected_language, r.translated_text))
      = some (JobStatus.completed, some "en", some "hello")
    ∧ (some "en" : Option String) ≠ none :=
  ⟨rfl, rfl, by decide⟩

end TextIntel
